import Mathlib

/-!
Verification development for the Table Tennis Fantasy repository.

The repository splits into a deterministic match-simulation and scoring core
(documented in docs/CONTRACTS.md and the specification) and a React frontend
(frontend/src). The frontend TypeScript sources are embedded directly. The
backend simulation and scoring modules are not part of the source tree made
available here, so they are modelled from the specification; every such
definition carries a doc comment starting with "Modelled from the spec:".
-/

namespace TTF

/-- The two sides of a match. The simulation core identifies players by id
strings; internally the tracker works with the side (player A or player B) and
the emitter translates sides back to ids from the match configuration. -/
inductive Side where
  | A
  | B
deriving DecidableEq, Repr

/-- The opposite side. -/
def Side.other : Side → Side
  | .A => .B
  | .B => .A

/-- Modelled from the spec: MatchConfig (section 3). match_id is an opaque
string, seed a 64-bit integer, best_of an odd integer (default 5),
games_to_win_set (default 11), win_by (default 2). -/
structure MatchConfig where
  match_id : String
  player_a_id : String
  player_b_id : String
  seed : Nat
  best_of : Nat
  games_to_win_set : Nat
  win_by : Nat
deriving DecidableEq, Repr

/-- Modelled from the spec: sets_to_win_match(best_of) = (best_of // 2) + 1
(docs/CONTRACTS.md, Core Simulation Outputs). -/
def sets_to_win_match (best_of : Nat) : Nat :=
  best_of / 2 + 1

/-- Modelled from the spec: validity of a MatchConfig (section 7, InvalidConfig:
non-odd best_of, non-positive games_to_win_set or win_by are rejected at
construction). -/
def valid_config (cfg : MatchConfig) : Bool :=
  cfg.best_of % 2 == 1 && 0 < cfg.games_to_win_set && 0 < cfg.win_by

/-- Modelled from the spec: PlayerProfile (section 3): skill rating, shot-type
win-probability weights, unforced-error rate, rally-length distribution
(short/medium/long), fatigue sensitivity coefficient. -/
structure PlayerProfile where
  player_id : String
  skill_rating : ℚ
  forehand_w : ℚ
  backhand_w : ℚ
  service_w : ℚ
  error_rate : ℚ
  rally_short : ℚ
  rally_medium : ℚ
  rally_long : ℚ
  fatigue_sensitivity : ℚ
deriving DecidableEq, Repr

/-- Modelled from the spec: ProfileStore, a mapping from player identifier to
PlayerProfile (section 3). -/
abbrev ProfileStore := List (String × PlayerProfile)

/-- Modelled from the spec: the deterministic random source (section 4.1) is an
opaque sequential generator built from a single integer seed; the algorithm is
not specified, so a standard 64-bit linear congruential generator stands in. -/
structure SeededRNG where
  state : Nat
deriving DecidableEq, Repr

/-- Modulus of the modelled 64-bit generator. -/
def rngModulus : Nat := 2 ^ 64

/-- Construct the generator from a seed. -/
def SeededRNG.ofSeed (seed : Nat) : SeededRNG :=
  ⟨seed % rngModulus⟩

/-- One raw draw of the modelled generator. -/
def SeededRNG.next_raw (r : SeededRNG) : Nat × SeededRNG :=
  let s := (r.state * 6364136223846793005 + 1442695040888963407) % rngModulus
  (s, ⟨s⟩)

/-- Modelled from the spec: next_float() in [0,1) (section 4.1). -/
def SeededRNG.next_float (r : SeededRNG) : ℚ × SeededRNG :=
  let p := r.next_raw
  ((p.1 : ℚ) / (rngModulus : ℚ), p.2)

/-- Modelled from the spec: next_int(bound) in [0,bound) (section 4.1). -/
def SeededRNG.next_int (r : SeededRNG) (bound : Nat) : Nat × SeededRNG :=
  let p := r.next_raw
  (p.1 % bound, p.2)

/-- Modelled from the spec: MomentumState (section 3): the identity of the
player currently on a winning streak and the streak length. -/
structure MomentumState where
  streak_player : Option Side
  streak_length : Nat
deriving DecidableEq, Repr

/-- Modelled from the spec: FatigueState (section 3): per-player cumulative
load, the sum of rally lengths weighted by the fatigue sensitivity. -/
structure FatigueState where
  load_a : ℚ
  load_b : ℚ
deriving DecidableEq, Repr

/-- Fresh fatigue state at match creation. -/
def FatigueState.init : FatigueState := ⟨0, 0⟩

/-- Modelled from the spec: the fatigue model (section 4.4) accumulates
rally_length times sensitivity for each player after every point. -/
def FatigueState.accumulate (f : FatigueState) (rally_length : Nat)
    (sens_a sens_b : ℚ) : FatigueState :=
  ⟨f.load_a + (rally_length : ℚ) * sens_a, f.load_b + (rally_length : ℚ) * sens_b⟩

/-- A pair of per-side counters (current-game points, or set tallies). -/
structure ScorePair where
  a : Nat
  b : Nat
deriving DecidableEq, Repr

/-- Counter of the given side. -/
def ScorePair.get (s : ScorePair) : Side → Nat
  | .A => s.a
  | .B => s.b

/-- Increment the counter of the given side. -/
def ScorePair.inc (s : ScorePair) : Side → ScorePair
  | .A => ⟨s.a + 1, s.b⟩
  | .B => ⟨s.a, s.b + 1⟩

/-- Modelled from the spec: the game-win condition (section 4.3): the winner
has at least games_to_win_set points and leads the opponent by at least
win_by. -/
def game_won (games_to_win_set win_by winner_pts loser_pts : Nat) : Bool :=
  games_to_win_set ≤ winner_pts && loser_pts + win_by ≤ winner_pts

/-- Modelled from the spec: state owned by the state tracker (section 4.3):
current game score, set tallies, indices and momentum. -/
structure TrackerState where
  game_score : ScorePair
  set_scores : ScorePair
  set_index : Nat
  point_index : Nat
  momentum : MomentumState
deriving DecidableEq, Repr

/-- Initial tracker state. -/
def TrackerState.init : TrackerState :=
  ⟨⟨0, 0⟩, ⟨0, 0⟩, 0, 0, ⟨none, 0⟩⟩

/-- Result of the streak bookkeeping step. -/
structure StreakResult where
  momentum : MomentumState
  broken : Bool
  continuing : Option Side
deriving DecidableEq, Repr

/-- Modelled from the spec: streak bookkeeping (section 4.3): if the same
player wins consecutively, increment that player's streak counter (clearing
the opponent's, since only one player holds a streak); if a streak of length
at least 2 is ended by the opponent winning, mark streak_broken. -/
def step_streak (m : MomentumState) (w : Side) : StreakResult :=
  match m.streak_player with
  | some p =>
    if p = w then
      ⟨⟨some w, m.streak_length + 1⟩, false, some w⟩
    else
      ⟨⟨some w, 1⟩, decide (2 ≤ m.streak_length), none⟩
  | none => ⟨⟨some w, 1⟩, false, none⟩

/-- The data of one score transition, consumed by the emitter. -/
structure PointTransition where
  score_before : ScorePair
  score_after : ScorePair
  set_scores_before : ScorePair
  set_scores_after : ScorePair
  set_index : Nat
  point_index : Nat
  streak_broken : Bool
  streak_continuing : Option Side
deriving DecidableEq, Repr

/-- Modelled from the spec: the state tracker applies one simulated point
(section 4.3). The winner's game-point count is incremented; if the game-win
condition is met the game is awarded: both in-set point counters reset to zero
and the winner's set tally increments; otherwise counters keep incrementing
with no point cap. -/
def TrackerState.apply_point (st : TrackerState) (cfg : MatchConfig) (w : Side) :
    PointTransition × TrackerState :=
  let inc := st.game_score.inc w
  let sr := step_streak st.momentum w
  if game_won cfg.games_to_win_set cfg.win_by (inc.get w) (inc.get w.other) then
    let sets := st.set_scores.inc w
    (⟨st.game_score, inc, st.set_scores, sets, st.set_index, st.point_index,
      sr.broken, sr.continuing⟩,
     ⟨⟨0, 0⟩, sets, st.set_index + 1, st.point_index + 1, sr.momentum⟩)
  else
    (⟨st.game_score, inc, st.set_scores, st.set_scores, st.set_index, st.point_index,
      sr.broken, sr.continuing⟩,
     ⟨inc, st.set_scores, st.set_index, st.point_index + 1, sr.momentum⟩)

/-- Modelled from the spec: the match-win condition (section 4.3): a set tally
reached sets_to_win_match. -/
def match_complete (cfg : MatchConfig) (st : TrackerState) : Bool :=
  sets_to_win_match cfg.best_of ≤ st.set_scores.a
    || sets_to_win_match cfg.best_of ≤ st.set_scores.b

/-- Shot type of a point outcome (section 3, PointOutcome). -/
inductive ShotType where
  | forehand
  | backhand
  | service
  | error
deriving DecidableEq, Repr

/-- Bucketed rally length (section 3, PointOutcome). -/
inductive RallyCategory where
  | short
  | medium
  | long
deriving DecidableEq, Repr

/-- Cap on the streak length feeding the momentum bonus (section 4.5: the
momentum bonus is proportional to the current streak length, capped). -/
def momentumBonusCap : Nat := 5

/-- Modelled from the spec: the momentum bonus of the probability engine
(section 4.5), proportional to the current streak length and capped. -/
def momentum_bonus (m : MomentumState) (s : Side) : ℚ :=
  if m.streak_player = some s then (min m.streak_length momentumBonusCap : ℚ) / 50
  else 0

/-- Modelled from the spec: the fatigue model applies a monotonically
decreasing adjustment to the effective skill rating (section 4.4). -/
def effective_skill (skill load : ℚ) : ℚ :=
  skill / (1 + load)

/-- Modelled from the spec: the probability engine (section 4.5) combines the
skill ratings adjusted by fatigue with the capped momentum bonus into the
probability that player A wins the current point. -/
def point_win_prob_a (pa pb : PlayerProfile) (f : FatigueState)
    (m : MomentumState) : ℚ :=
  let ea := effective_skill pa.skill_rating f.load_a * (1 + momentum_bonus m .A)
  let eb := effective_skill pb.skill_rating f.load_b * (1 + momentum_bonus m .B)
  if ea + eb = 0 then 1 / 2 else ea / (ea + eb)

/-- Modelled from the spec: conditional distribution over the winning shot
type given which player wins (section 4.5), weighted by the winner's profile
weights and error rate. -/
def pick_shot_type (p : PlayerProfile) (u : ℚ) : ShotType :=
  let tot := p.forehand_w + p.backhand_w + p.service_w + p.error_rate
  if tot ≤ 0 then .forehand
  else if u * tot < p.forehand_w then .forehand
  else if u * tot < p.forehand_w + p.backhand_w then .backhand
  else if u * tot < p.forehand_w + p.backhand_w + p.service_w then .service
  else .error

/-- Modelled from the spec: the rally-length category is drawn from the
winner-irrelevant, profile-weighted length distribution (section 4.5). -/
def pick_rally_category (pa pb : PlayerProfile) (u : ℚ) : RallyCategory :=
  let s := (pa.rally_short + pb.rally_short) / 2
  let m := (pa.rally_medium + pb.rally_medium) / 2
  let l := (pa.rally_long + pb.rally_long) / 2
  let tot := s + m + l
  if tot ≤ 0 then .short
  else if u * tot < s then .short
  else if u * tot < s + m then .medium
  else .long

/-- Numeric range of rally lengths for each category (section 4.5: the actual
integer rally length is sampled within the chosen category's numeric range). -/
def rally_length_range : RallyCategory → Nat × Nat
  | .short => (1, 4)
  | .medium => (5, 8)
  | .long => (9, 15)

/-- Modelled from the spec: PointOutcome (section 3): winner, shot type, rally
length and rally category (internally the winner is a side). -/
structure PointOutcome where
  winner : Side
  shot_type : ShotType
  rally_length : Nat
  rally_category : RallyCategory
deriving DecidableEq, Repr

/-- Modelled from the spec: the point simulator (section 4.6) draws a single
point from the probability engine; every call advances the RandomSource by a
fixed number of draws (winner, shot type, rally category, rally length) in a
fixed order (section 4.5). -/
def simulate_point (pa pb : PlayerProfile) (f : FatigueState) (m : MomentumState)
    (rng : SeededRNG) : PointOutcome × SeededRNG :=
  let probA := point_win_prob_a pa pb f m
  let d1 := rng.next_float
  let w : Side := if d1.1 < probA then .A else .B
  let d2 := d1.2.next_float
  let st := pick_shot_type (if w = .A then pa else pb) d2.1
  let d3 := d2.2.next_float
  let rc := pick_rally_category pa pb d3.1
  let range := rally_length_range rc
  let d4 := d3.2.next_int (range.2 - range.1 + 1)
  (⟨w, st, range.1 + d4.1, rc⟩, d4.2)

/-- The outcome part of an emitted point event (winner and loser ids and the
shot type, per docs/CONTRACTS.md PointEvent Contract). -/
structure PointEventOutcome where
  winner_id : String
  loser_id : String
  shot_type : ShotType
deriving DecidableEq, Repr

/-- Modelled from the spec: PointEvent (section 3 and docs/CONTRACTS.md):
identifiers, score before and after for the current game, set-scores before
and after, the outcome, rally data, streak-broken flag and nullable
streak-continuing identifier. -/
structure PointEvent where
  match_id : String
  point_index : Nat
  set_index : Nat
  game_index : Nat
  score_before : Nat × Nat
  score_after : Nat × Nat
  set_scores_before : Nat × Nat
  set_scores_after : Nat × Nat
  server_id : String
  outcome : PointEventOutcome
  rally_length : Nat
  rally_category : RallyCategory
  streak_broken : Bool
  streak_continuing : Option String
deriving DecidableEq, Repr

/-- Identifier of a side under a configuration. -/
def side_id (cfg : MatchConfig) : Side → String
  | .A => cfg.player_a_id
  | .B => cfg.player_b_id

/-- Serving side of a point: service alternates every two points, player A
serving first (table-tennis service rotation). -/
def server_of_point (point_index : Nat) : Side :=
  if point_index / 2 % 2 = 0 then .A else .B

/-- Modelled from the spec: the emitter (section 4.7) fills every PointEvent
field from the state-tracker transition and the point outcome only. The
simulator's game units are the sport's sets, so the game index coincides with
the set index (glossary). -/
def emit_event (cfg : MatchConfig) (tr : PointTransition) (o : PointOutcome) :
    PointEvent where
  match_id := cfg.match_id
  point_index := tr.point_index
  set_index := tr.set_index
  game_index := tr.set_index
  score_before := (tr.score_before.a, tr.score_before.b)
  score_after := (tr.score_after.a, tr.score_after.b)
  set_scores_before := (tr.set_scores_before.a, tr.set_scores_before.b)
  set_scores_after := (tr.set_scores_after.a, tr.set_scores_after.b)
  server_id := side_id cfg (server_of_point tr.point_index)
  outcome := ⟨side_id cfg o.winner, side_id cfg o.winner.other, o.shot_type⟩
  rally_length := o.rally_length
  rally_category := o.rally_category
  streak_broken := tr.streak_broken
  streak_continuing := tr.streak_continuing.map (side_id cfg)

/-- Full per-match simulation state: tracker, fatigue and random source. -/
structure SimState where
  tracker : TrackerState
  fatigue : FatigueState
  rng : SeededRNG
deriving DecidableEq, Repr

/-- Initial simulation state of a match. -/
def SimState.init (cfg : MatchConfig) : SimState :=
  ⟨TrackerState.init, FatigueState.init, SeededRNG.ofSeed cfg.seed⟩

/-- One step of the orchestrator loop: simulate a point, apply it via the
state tracker, accumulate fatigue, and emit the event. -/
def sim_step (cfg : MatchConfig) (pa pb : PlayerProfile) (s : SimState) :
    PointEvent × SimState :=
  let oc := simulate_point pa pb s.fatigue s.tracker.momentum s.rng
  let tr := s.tracker.apply_point cfg oc.1.winner
  let f := s.fatigue.accumulate oc.1.rally_length pa.fatigue_sensitivity
    pb.fatigue_sensitivity
  (emit_event cfg tr.1 oc.1, ⟨tr.2, f, oc.2⟩)

/-- Modelled from the spec: the orchestrator loop (section 4.8): while the
state tracker is not MatchComplete, simulate a point, apply it, emit the
event. The fuel argument makes the loop structurally recursive; it models the
unbounded while-loop of the source, which has no internal bound. -/
def run_aux (cfg : MatchConfig) (pa pb : PlayerProfile) :
    Nat → SimState → List PointEvent
  | 0, _ => []
  | fuel + 1, s =>
    if match_complete cfg s.tracker then []
    else
      let step := sim_step cfg pa pb s
      step.1 :: run_aux cfg pa pb fuel step.2

/-- Simulation errors (section 7): a missing profile or an invalid
configuration, both fatal before any point is simulated. -/
inductive SimError where
  | MissingProfile
  | InvalidConfig
deriving DecidableEq, Repr

/-- Fuel bound used by the orchestrator entry point; generous with respect to
ordinary play, standing in for the unbounded loop of the source. -/
def match_fuel (cfg : MatchConfig) : Nat :=
  cfg.best_of * (4 * cfg.games_to_win_set + 2 * cfg.win_by + 1024)

/-- Modelled from the spec: MatchOrchestrator.run(config, store) (section 4.8
and docs/CONTRACTS.md): fail fast on an invalid configuration or a missing
profile, otherwise produce the ordered finite sequence of point events from a
fresh per-match state. -/
def MatchOrchestrator.run (cfg : MatchConfig) (store : ProfileStore) :
    Except SimError (List PointEvent) :=
  if valid_config cfg then
    match store.lookup cfg.player_a_id, store.lookup cfg.player_b_id with
    | some pa, some pb => .ok (run_aux cfg pa pb (match_fuel cfg) (SimState.init cfg))
    | _, _ => .error .MissingProfile
  else
    .error .InvalidConfig

/-- Aggregation errors (section 7): InvalidEventStream is raised when the
aggregator is given a malformed or inconsistent event sequence. -/
inductive AggError where
  | InvalidEventStream
deriving DecidableEq, Repr

/-- Modelled from the spec: MatchStats (section 3): per-player structured
statistics derived entirely from a PointEvent sequence. -/
structure MatchStats where
  player_id : String
  won_match : Bool
  sets_won : Nat
  sets_lost : Nat
  points_won : Nat
  points_lost : Nat
  forehand_winners : Nat
  backhand_winners : Nat
  service_winners : Nat
  unforced_errors : Nat
  rally_short_won : Nat
  rally_medium_won : Nat
  rally_long_won : Nat
  serve_points_won : Nat
  serve_points_total : Nat
  longest_rally : Nat
  streak_breaks_caused : Nat
  three_plus_streaks : Nat
  comeback_sets : Nat
  won_deciding_set : Bool
  went_distance : Bool
  best_of : Nat
deriving DecidableEq, Repr

/-- Number of events in which the given player completed a streak of exactly
three consecutive points (each own streak of 3 or more counts once). -/
def count_three_plus (events : List PointEvent) (pid : String) : Nat :=
  (events.foldl
    (fun (acc : (Option String × Nat) × Nat) e =>
      let w := e.outcome.winner_id
      let len := if acc.1.1 = some w then acc.1.2 + 1 else 1
      ((some w, len), if w = pid ∧ len = 3 then acc.2 + 1 else acc.2))
    ((none, 0), 0)).2

/-- Deficit from which winning a set counts as a comeback (section 4.10:
comeback set, won a set after trailing past a threshold). -/
def comeback_deficit : Nat := 3

/-- Accumulator of the comeback-set scan. -/
structure ComebackAcc where
  cur_set : Option Nat
  trail_a : Bool
  trail_b : Bool
  count_a : Nat
  count_b : Nat
deriving DecidableEq, Repr

/-- Comeback sets per player: a set counts for the player who is awarded it
after trailing in it by at least the comeback deficit. -/
def comeback_sets (events : List PointEvent) (player_a_id : String) : Nat × Nat :=
  let final := events.foldl
    (fun (acc : ComebackAcc) e =>
      let fresh := acc.cur_set ≠ some e.set_index
      let ta := (¬ fresh ∧ acc.trail_a) ∨ e.score_before.1 + comeback_deficit ≤ e.score_before.2
      let tb := (¬ fresh ∧ acc.trail_b) ∨ e.score_before.2 + comeback_deficit ≤ e.score_before.1
      let awarded := e.set_scores_after ≠ e.set_scores_before
      let winner_is_a := e.outcome.winner_id = player_a_id
      { cur_set := some e.set_index
        trail_a := ta
        trail_b := tb
        count_a := if awarded ∧ winner_is_a ∧ ta then acc.count_a + 1 else acc.count_a
        count_b := if awarded ∧ ¬ winner_is_a ∧ tb then acc.count_b + 1 else acc.count_b })
    ⟨none, false, false, 0, 0⟩
  (final.count_a, final.count_b)

/-- Consistency of the final set-scores of an event stream with best_of and
the declared match winner: the winner reached sets_to_win_match and the loser
did not. -/
def final_scores_consistent (last : PointEvent) (winner_id player_a_id player_b_id : String)
    (best_of : Nat) : Bool :=
  let s := sets_to_win_match best_of
  (last.set_scores_after.1 == s && last.set_scores_after.2 < s && winner_id == player_a_id)
    || (last.set_scores_after.2 == s && last.set_scores_after.1 < s && winner_id == player_b_id)

/-- Statistics of player A computed from the events; every event not won by
player A is counted as a point for player B, so the two point totals always
partition the events. -/
def stats_of_events_a (events : List PointEvent) (last : PointEvent)
    (winner_id player_a_id : String) (best_of : Nat) : MatchStats where
  player_id := player_a_id
  won_match := winner_id == player_a_id
  sets_won := last.set_scores_after.1
  sets_lost := last.set_scores_after.2
  points_won := events.countP (fun e => e.outcome.winner_id == player_a_id)
  points_lost := events.countP (fun e => !(e.outcome.winner_id == player_a_id))
  forehand_winners := events.countP
    (fun e => e.outcome.winner_id == player_a_id && e.outcome.shot_type == .forehand)
  backhand_winners := events.countP
    (fun e => e.outcome.winner_id == player_a_id && e.outcome.shot_type == .backhand)
  service_winners := events.countP
    (fun e => e.outcome.winner_id == player_a_id && e.outcome.shot_type == .service)
  unforced_errors := events.countP
    (fun e => !(e.outcome.winner_id == player_a_id) && e.outcome.shot_type == .error)
  rally_short_won := events.countP
    (fun e => e.outcome.winner_id == player_a_id && e.rally_category == .short)
  rally_medium_won := events.countP
    (fun e => e.outcome.winner_id == player_a_id && e.rally_category == .medium)
  rally_long_won := events.countP
    (fun e => e.outcome.winner_id == player_a_id && e.rally_category == .long)
  serve_points_won := events.countP
    (fun e => e.server_id == player_a_id && e.outcome.winner_id == player_a_id)
  serve_points_total := events.countP (fun e => e.server_id == player_a_id)
  longest_rally := events.foldl (fun acc e => max acc e.rally_length) 0
  streak_breaks_caused := events.countP
    (fun e => e.streak_broken && e.outcome.winner_id == player_a_id)
  three_plus_streaks := count_three_plus events player_a_id
  comeback_sets := (comeback_sets events player_a_id).1
  won_deciding_set :=
    (last.set_scores_after.1 + last.set_scores_after.2 == best_of)
      && winner_id == player_a_id
  went_distance := last.set_scores_after.1 + last.set_scores_after.2 == best_of
  best_of := best_of

/-- Statistics of player B, the mirror image of player A: points, errors and
streak breaks are attributed by the complement of the player-A tests. -/
def stats_of_events_b (events : List PointEvent) (last : PointEvent)
    (winner_id player_a_id player_b_id : String) (best_of : Nat) : MatchStats where
  player_id := player_b_id
  won_match := !(winner_id == player_a_id)
  sets_won := last.set_scores_after.2
  sets_lost := last.set_scores_after.1
  points_won := events.countP (fun e => !(e.outcome.winner_id == player_a_id))
  points_lost := events.countP (fun e => e.outcome.winner_id == player_a_id)
  forehand_winners := events.countP
    (fun e => !(e.outcome.winner_id == player_a_id) && e.outcome.shot_type == .forehand)
  backhand_winners := events.countP
    (fun e => !(e.outcome.winner_id == player_a_id) && e.outcome.shot_type == .backhand)
  service_winners := events.countP
    (fun e => !(e.outcome.winner_id == player_a_id) && e.outcome.shot_type == .service)
  unforced_errors := events.countP
    (fun e => e.outcome.winner_id == player_a_id && e.outcome.shot_type == .error)
  rally_short_won := events.countP
    (fun e => !(e.outcome.winner_id == player_a_id) && e.rally_category == .short)
  rally_medium_won := events.countP
    (fun e => !(e.outcome.winner_id == player_a_id) && e.rally_category == .medium)
  rally_long_won := events.countP
    (fun e => !(e.outcome.winner_id == player_a_id) && e.rally_category == .long)
  serve_points_won := events.countP
    (fun e => e.server_id == player_b_id && !(e.outcome.winner_id == player_a_id))
  serve_points_total := events.countP (fun e => e.server_id == player_b_id)
  longest_rally := events.foldl (fun acc e => max acc e.rally_length) 0
  streak_breaks_caused := events.countP
    (fun e => e.streak_broken && !(e.outcome.winner_id == player_a_id))
  three_plus_streaks := count_three_plus events player_b_id
  comeback_sets := (comeback_sets events player_a_id).2
  won_deciding_set :=
    (last.set_scores_after.1 + last.set_scores_after.2 == best_of)
      && !(winner_id == player_a_id)
  went_distance := last.set_scores_after.1 + last.set_scores_after.2 == best_of
  best_of := best_of

/-- Modelled from the spec: aggregate_stats_from_events (section 4.9 and
docs/CONTRACTS.md, Scoring Layer): consumes a finished event sequence and
produces MatchStats for both players; fails with InvalidEventStream when
winner_id is neither player or when the final set-scores of the stream are
inconsistent with best_of. -/
def aggregate_stats_from_events (events : List PointEvent)
    (winner_id player_a_id player_b_id : String) (best_of : Nat) :
    Except AggError (MatchStats × MatchStats) :=
  if winner_id ≠ player_a_id ∧ winner_id ≠ player_b_id then
    .error .InvalidEventStream
  else
    match events.getLast? with
    | none => .error .InvalidEventStream
    | some last =>
      if final_scores_consistent last winner_id player_a_id player_b_id best_of then
        .ok (stats_of_events_a events last winner_id player_a_id best_of,
             stats_of_events_b events last winner_id player_a_id player_b_id best_of)
      else
        .error .InvalidEventStream

/-- Modelled from the spec: compute_fantasy_score (section 4.10): the fixed
rubric applied to MatchStats, summed into a single numeric score. -/
def compute_fantasy_score (stats : MatchStats) : ℚ :=
  (if stats.won_match then 30 else 5)
    + 6 * stats.sets_won
    + 1 * stats.sets_lost
    + (if stats.won_match ∧ stats.sets_lost = 0 then 10 else 0)
    + (if stats.best_of = 5 ∧ stats.went_distance then 8 else 0)
    + (1 / 2) * ((stats.points_won : ℚ) - (stats.points_lost : ℚ))
    + 4 * stats.comeback_sets
    + (if stats.won_deciding_set then 6 else 0)
    + 2 * stats.streak_breaks_caused
    + 1 * stats.three_plus_streaks
    + (1 / 2) * ((stats.forehand_winners : ℚ) + stats.backhand_winners + stats.service_winners)
    - (1 / 2) * (stats.unforced_errors : ℚ)

/-- Outcome field of a frontend point-event dict, as read by the momentum
chart (only the winner id is consulted). -/
structure MomentumOutcome where
  winner_id : String
deriving DecidableEq, Repr

/-- Frontend point event as consumed by buildMomentumData: the code reads
e.outcome with optional chaining, so the outcome is modelled as optional. -/
structure MomentumEvent where
  outcome : Option MomentumOutcome
deriving DecidableEq, Repr

/-- One element of the frontend momentum chart data. -/
structure MomentumPoint where
  point : Nat
  diff : Int
  scoreA : Nat
  scoreB : Nat
deriving DecidableEq, Repr

/-- Loop body of buildMomentumData: index and both running scores are carried
through the iteration exactly as the source mutates them. -/
def buildMomentumGo (playerAId : String) :
    List MomentumEvent → Nat → Nat → Nat → List MomentumPoint
  | [], _, _, _ => []
  | e :: rest, i, scoreA, scoreB =>
    let winner := e.outcome.map (fun o => o.winner_id)
    let sA := if winner = some playerAId then scoreA + 1 else scoreA
    let sB := if winner = some playerAId then scoreB else scoreB + 1
    ⟨i + 1, (sA : Int) - (sB : Int), sA, sB⟩ ::
      buildMomentumGo playerAId rest (i + 1) sA sB

/-- Embedding of buildMomentumData (frontend MatchDetail.tsx, lines 27-44):
walks the events; a point whose winner is player A increments scoreA,
any other point (a different winner or an absent outcome) increments scoreB;
each output row records point = i + 1, diff = scoreA - scoreB and both
scores. -/
def buildMomentumData (events : List MomentumEvent) (playerAId : String) :
    List MomentumPoint :=
  buildMomentumGo playerAId events 0 0 0

/-- JSON values, as produced by JSON.parse in the frontend API client.
Numbers are restricted to integers, which suffices for the error payloads the
client handles. -/
inductive Json where
  | null
  | bool (b : Bool)
  | num (n : Int)
  | str (s : String)
  | arr (elems : List Json)
  | obj (fields : List (String × Json))

/-- JSON string escaping of one character (quote and backslash). -/
def Json.escapeChar (c : Char) : String :=
  if c = '\"' then "\\\"" else if c = '\\' then "\\\\" else String.singleton c

/-- JSON serialization of a string literal. -/
def Json.quote (s : String) : String :=
  "\"" ++ String.join (s.toList.map Json.escapeChar) ++ "\""

mutual

/-- Model of JSON.stringify on parsed JSON values. -/
def Json.stringify : Json → String
  | .null => "null"
  | .bool true => "true"
  | .bool false => "false"
  | .num n => toString n
  | .str s => Json.quote s
  | .arr es => "[" ++ Json.stringifyArr es ++ "]"
  | .obj fs => "\x7b" ++ Json.stringifyObj fs ++ "\x7d"

/-- Comma-separated serialization of array elements. -/
def Json.stringifyArr : List Json → String
  | [] => ""
  | [e] => Json.stringify e
  | e :: e2 :: es => Json.stringify e ++ "," ++ Json.stringifyArr (e2 :: es)

/-- Comma-separated serialization of object fields. -/
def Json.stringifyObj : List (String × Json) → String
  | [] => ""
  | [(k, v)] => Json.quote k ++ ":" ++ Json.stringify v
  | (k, v) :: f :: fs =>
    Json.quote k ++ ":" ++ Json.stringify v ++ "," ++ Json.stringifyObj (f :: fs)

end

/-- JavaScript property access on a parsed JSON value: a field of an object,
undefined (none) on any other non-null value. Access on null throws and is
handled at the call site. -/
def Json.getField : Json → String → Option Json
  | .obj fs, k => fs.lookup k
  | _, _ => none

/-- An HTTP response as seen by the API client after fetch: the ok flag, the
numeric status and the body text. -/
structure HttpResponse where
  ok : Bool
  status : Nat
  body : String
deriving DecidableEq, Repr

/-- Result of one apiRequest call: the promise resolves with a parsed value or
rejects. A rejection carries the Error message thrown by the client code, or
none when the exception is the engine-raised SyntaxError of JSON.parse on an
ok response, whose text the client does not produce. -/
inductive ApiOutcome where
  | success (value : Json)
  | failure (message : Option String)

/-- Fallback message for an empty error body. -/
def request_failed_message (status : Nat) : String :=
  "Request failed with status " ++ toString status

/-- Message selection on the detail field (frontend api.ts, line 70): the
detail value itself when it is a string, otherwise
JSON.stringify(detail ?? text) — an absent or null detail serializes the body
text instead (each constructor case is spelled out so the equations do not
overlap). -/
def detail_message (text : String) : Option Json → String
  | some (Json.str s) => s
  | some Json.null => Json.stringify (Json.str text)
  | some (Json.bool b) => Json.stringify (Json.bool b)
  | some (Json.num n) => Json.stringify (Json.num n)
  | some (Json.arr es) => Json.stringify (Json.arr es)
  | some (Json.obj fs) => Json.stringify (Json.obj fs)
  | none => Json.stringify (Json.str text)

/-- Embedding of the error-message computation of apiRequest (frontend api.ts,
lines 66-74): try JSON.parse(text); on success take parsed.detail when it is
a string, otherwise JSON.stringify(parsed.detail ?? text); property access on
a parsed null throws, and any exception falls back to text, or to the status
message when text is empty. -/
def apiErrorMessage (status : Nat) (text : String) (parsed : Option Json) : String :=
  match parsed with
  | none => if text = "" then request_failed_message status else text
  | some Json.null => if text = "" then request_failed_message status else text
  | some (Json.bool b) => detail_message text ((Json.bool b).getField "detail")
  | some (Json.num n) => detail_message text ((Json.num n).getField "detail")
  | some (Json.str s) => detail_message text ((Json.str s).getField "detail")
  | some (Json.arr es) => detail_message text ((Json.arr es).getField "detail")
  | some (Json.obj fs) => detail_message text ((Json.obj fs).getField "detail")

/-- Embedding of the response handling of apiRequest (frontend api.ts, lines
64-77): the fetch and the JSON.parse oracle are inputs; parsed is the result
of JSON.parse on the body (none when it throws). A non-ok response always
throws an Error with the computed message; an ok response resolves with the
parsed body, with the empty object for an empty body, and rejects with the
parse exception when a non-empty body does not parse. -/
def apiRequest (res : HttpResponse) (parsed : Option Json) : ApiOutcome :=
  if res.ok then
    if res.body = "" then .success (.obj [])
    else
      match parsed with
      | some v => .success v
      | none => .failure none
  else
    .failure (some (apiErrorMessage res.status res.body parsed))

/-- Whitespace skipped by parseInt. -/
def js_whitespace : List Char := [' ', '\t', '\n', '\r']

/-- Decimal digit test. -/
def is_digit (c : Char) : Bool := '0' ≤ c && c ≤ '9'

/-- Numeric value of the longest leading digit run; none when it is empty. -/
def digits_value (cs : List Char) : Option Nat :=
  let ds := cs.takeWhile is_digit
  if ds.isEmpty then none
  else some (ds.foldl (fun a c => 10 * a + (c.toNat - '0'.toNat)) 0)

/-- Embedding of parseInt(s, 10): skip leading whitespace, read an optional
sign and the longest leading digit run; NaN (none) when there is no digit. -/
def jsParseInt (s : String) : Option Int :=
  let cs := s.toList.dropWhile (fun c => js_whitespace.contains c)
  match cs with
  | '-' :: rest => (digits_value rest).map (fun n => -(n : Int))
  | '+' :: rest => (digits_value rest).map (fun n => (n : Int))
  | rest => (digits_value rest).map (fun n => (n : Int))

/-- NUM_SLOTS = 7 (frontend LeagueMatchGamePage). -/
def NUM_SLOTS : Nat := 7

/-- Embedding of the game-slot computation of LeagueMatchGamePage (frontend,
const slot = Math.min(NUM_SLOTS, Math.max(1, parseInt(slotParam ?? '1', 10) || 1))):
an undefined route parameter defaults to the string "1"; the or-expression
maps the falsy parse results NaN and 0 to 1; the result is clamped between 1
and NUM_SLOTS. -/
def league_match_game_slot (slotParam : Option String) : Int :=
  let raw := jsParseInt (slotParam.getD "1")
  let v : Int :=
    match raw with
    | some n => if n = 0 then 1 else n
    | none => 1
  min (NUM_SLOTS : Int) (max 1 v)

/-- Relation between consecutive events of one run: within the same game unit
the score chains (score_after of one event is score_before of the next), and
the set-score tally always chains. -/
def EventStep (e1 e2 : PointEvent) : Prop :=
  (e2.set_index = e1.set_index → e2.score_before = e1.score_after)
    ∧ e2.set_scores_before = e1.set_scores_after

/-- Componentwise order on the set-score tallies of two events. -/
def SetTallyLE (e1 e2 : PointEvent) : Prop :=
  e1.set_scores_after.1 ≤ e2.set_scores_after.1
    ∧ e1.set_scores_after.2 ≤ e2.set_scores_after.2

instance : IsTrans PointEvent SetTallyLE :=
  ⟨fun _ _ _ h1 h2 => ⟨le_trans h1.1 h2.1, le_trans h1.2 h2.2⟩⟩

instance : IsRefl PointEvent SetTallyLE :=
  ⟨fun _ => ⟨le_refl _, le_refl _⟩⟩

/-- Streak bookkeeping at the level of emitted events: the state is the
current streak holder (an id) and the streak length, updated per winner
exactly as the tracker does. -/
def streak_step (st : Option String × Nat) (w : String) : Option String × Nat :=
  if st.1 = some w then (some w, st.2 + 1) else (some w, 1)

/-- The streak state reached after a list of point winners, starting from no
streak. -/
def streak_state (ws : List String) : Option String × Nat :=
  ws.foldl streak_step (none, 0)

/-- The tracker momentum seen through player ids. -/
def mom_ids (cfg : MatchConfig) (m : MomentumState) : Option String × Nat :=
  (m.streak_player.map (side_id cfg), m.streak_length)

/-- The streak-broken soundness property of an event list relative to an
incoming streak state: an event may carry streak_broken only when the
incoming streak holder differs from its winner and the incoming streak length
is at least 2. -/
def StreakOK (acc : Option String × Nat) : List PointEvent → Prop
  | [] => True
  | e :: rest =>
    (e.streak_broken = true →
      ∃ p, acc.1 = some p ∧ p ≠ e.outcome.winner_id ∧ 2 ≤ acc.2)
      ∧ StreakOK (streak_step acc e.outcome.winner_id) rest

/-- Profile fixture used by the witnesses: equal-skill players with the
default rally distribution, written with relative integer weights. -/
def sample_profile (pid : String) : PlayerProfile :=
  ⟨pid, 1, 3, 3, 2, 2, 56, 34, 10, 1⟩

/-- Store fixture holding both players. -/
def sample_store : ProfileStore :=
  [("p1", sample_profile "p1"), ("p2", sample_profile "p2")]

/-- The same store contents listed in the opposite order (same mapping). -/
def sample_store_rev : ProfileStore :=
  [("p2", sample_profile "p2"), ("p1", sample_profile "p1")]

/-- A minimal valid configuration: one point decides the match. -/
def cfg_m1 : MatchConfig := ⟨"m1", "p1", "p2", 42, 1, 1, 1⟩

/-- The same configuration under a different match id. -/
def cfg_m2 : MatchConfig := ⟨"m2", "p1", "p2", 42, 1, 1, 1⟩

/-- The event sequence produced for cfg_m1 over the sample store. -/
def run_m1 : List PointEvent :=
  (MatchOrchestrator.run cfg_m1 sample_store).toOption.getD []

/-- A single hand-written event forming a consistent best-of-1 stream won by
player p1. -/
def ev_agg : PointEvent :=
  ⟨"m", 0, 0, 0, (0, 0), (1, 0), (0, 0), (1, 0), "p1",
    ⟨"p1", "p2", .forehand⟩, 3, .short, false, none⟩

/-- Stats fixture used by the fantasy-score witness. -/
def sample_stats : MatchStats :=
  stats_of_events_a [ev_agg] ev_agg "p1" "p1" 1

/-- A non-ok HTTP response fixture with a JSON error body. -/
def resD : HttpResponse :=
  ⟨false, 404, "\x7b\"detail\":\"nope\"\x7d"⟩

/-- The parse of the body of resD. -/
def parsedD : Option Json :=
  some (Json.obj [("detail", Json.str "nope")])

/-- C10: for every value of the slot route parameter, the game-slot number
computed by LeagueMatchGamePage is an integer between 1 and NUM_SLOTS = 7;
an undefined, empty or non-numeric parameter yields 1, and a parsed numeric
value is clamped into [1, 7]. -/
theorem league_match_game_slot_in_range (slotParam : Option String) :
    (1 ≤ league_match_game_slot slotParam ∧ league_match_game_slot slotParam ≤ 7)
      ∧ (slotParam = none → league_match_game_slot slotParam = 1)
      ∧ (slotParam = some "" → league_match_game_slot slotParam = 1)
      ∧ (jsParseInt (slotParam.getD "1") = none → league_match_game_slot slotParam = 1)
      ∧ (∀ n : Int, jsParseInt (slotParam.getD "1") = some n →
          league_match_game_slot slotParam = min 7 (max 1 n)) := by
  refine ⟨⟨?_, ?_⟩, ?_, ?_, ?_, ?_⟩
  · unfold league_match_game_slot
    exact le_min (by norm_num [NUM_SLOTS]) (le_max_left _ _)
  · calc league_match_game_slot slotParam ≤ (NUM_SLOTS : Int) :=
          min_le_left _ _
      _ = 7 := by norm_num [NUM_SLOTS]
  · intro h; subst h; decide
  · intro h; subst h; decide
  · intro h
    simp only [league_match_game_slot, h]
    norm_num [NUM_SLOTS]
  · intro n h
    simp only [league_match_game_slot, h]
    by_cases hn : n = 0
    · subst hn; norm_num [NUM_SLOTS]
    · simp [hn, NUM_SLOTS]

/-- Witness for C10 at the concrete route parameter "12". -/
theorem league_match_game_slot_in_range_witness :
    jsParseInt ((some "12").getD "1") = some 12
      ∧ league_match_game_slot (some "12") = min 7 (max 1 12) :=
  ⟨by decide, ((league_match_game_slot_in_range (some "12")).2.2.2.2 12 (by decide))⟩

/-- C8: compute_fantasy_score is a pure deterministic function of MatchStats:
equal inputs give equal scores, and a repeated call on the same stats gives
the same value (in this embedding the stats value is immutable, so the input
is never changed). -/
theorem compute_fantasy_score_deterministic (s1 s2 : MatchStats) (h : s1 = s2) :
    compute_fantasy_score s1 = compute_fantasy_score s2
      ∧ compute_fantasy_score s1 = compute_fantasy_score s1 := by
  subst h
  exact ⟨rfl, rfl⟩

/-- Witness for C8 at a concrete stats value. -/
theorem compute_fantasy_score_deterministic_witness :
    sample_stats = sample_stats
      ∧ (compute_fantasy_score sample_stats = compute_fantasy_score sample_stats
          ∧ compute_fantasy_score sample_stats = compute_fantasy_score sample_stats) :=
  ⟨rfl, compute_fantasy_score_deterministic sample_stats sample_stats rfl⟩

/-- C1 counterexample: the two configurations agree on
(player_a_id, player_b_id, seed, best_of, games_to_win_set, win_by) and run
over the same store, yet the produced PointEvent sequences are not identical:
every event embeds match_id, which the fixed tuple does not determine. -/
theorem run_not_determined_by_seed_tuple :
    (cfg_m1.player_a_id, cfg_m1.player_b_id, cfg_m1.seed, cfg_m1.best_of,
        cfg_m1.games_to_win_set, cfg_m1.win_by)
      = (cfg_m2.player_a_id, cfg_m2.player_b_id, cfg_m2.seed, cfg_m2.best_of,
        cfg_m2.games_to_win_set, cfg_m2.win_by)
      ∧ (MatchOrchestrator.run cfg_m1 sample_store).toOption.map List.isEmpty = some false
      ∧ (MatchOrchestrator.run cfg_m2 sample_store).toOption.map List.isEmpty = some false
      ∧ (MatchOrchestrator.run cfg_m1 sample_store).toOption
          ≠ (MatchOrchestrator.run cfg_m2 sample_store).toOption :=
  ⟨by decide, by decide, by decide, by decide⟩

/-- C1 amended: run is deterministic and restartable — it depends only on the
configuration (including match_id) and on the store entries of the two
configured players, so repeated runs over equal inputs give identical
sequences. -/
theorem run_deterministic (cfg : MatchConfig) (store1 store2 : ProfileStore)
    (ha : store1.lookup cfg.player_a_id = store2.lookup cfg.player_a_id)
    (hb : store1.lookup cfg.player_b_id = store2.lookup cfg.player_b_id) :
    MatchOrchestrator.run cfg store1 = MatchOrchestrator.run cfg store2
      ∧ MatchOrchestrator.run cfg store1 = MatchOrchestrator.run cfg store1 := by
  unfold MatchOrchestrator.run
  rw [ha, hb]
  exact ⟨rfl, rfl⟩

/-- Witness for the amended C1: the same store contents in a different list
order produce the identical run. -/
theorem run_deterministic_witness :
    sample_store.lookup cfg_m1.player_a_id = sample_store_rev.lookup cfg_m1.player_a_id
      ∧ sample_store.lookup cfg_m1.player_b_id = sample_store_rev.lookup cfg_m1.player_b_id
      ∧ (MatchOrchestrator.run cfg_m1 sample_store = MatchOrchestrator.run cfg_m1 sample_store_rev
          ∧ MatchOrchestrator.run cfg_m1 sample_store = MatchOrchestrator.run cfg_m1 sample_store) :=
  ⟨by decide, by decide,
    run_deterministic cfg_m1 sample_store sample_store_rev (by decide) (by decide)⟩

/-- C6: aggregation fails with InvalidEventStream whenever winner_id is
neither player id, and whenever the final set-scores of the stream (none for
an empty stream) are inconsistent with best_of; a failure concerns only that
call — any other aggregation call still returns its own value. -/
theorem aggregate_invalid_stream (events : List PointEvent)
    (winner_id pa pb : String) (best_of : Nat) :
    (winner_id ≠ pa ∧ winner_id ≠ pb →
        aggregate_stats_from_events events winner_id pa pb best_of
          = .error .InvalidEventStream)
      ∧ (events.getLast? = none →
          aggregate_stats_from_events events winner_id pa pb best_of
            = .error .InvalidEventStream)
      ∧ (∀ last, events.getLast? = some last →
          final_scores_consistent last winner_id pa pb best_of = false →
          aggregate_stats_from_events events winner_id pa pb best_of
            = .error .InvalidEventStream)
      ∧ (∀ (events2 : List PointEvent) (w2 a2 b2 : String) (bo2 : Nat),
          aggregate_stats_from_events events winner_id pa pb best_of
            = .error .InvalidEventStream →
          aggregate_stats_from_events events2 w2 a2 b2 bo2
            = aggregate_stats_from_events events2 w2 a2 b2 bo2) := by
  refine ⟨fun h => ?_, fun h => ?_, fun last hl hc => ?_, fun _ _ _ _ _ _ => rfl⟩
  · unfold aggregate_stats_from_events
    rw [if_pos h]
  · unfold aggregate_stats_from_events
    split
    · rfl
    · rw [h]
  · unfold aggregate_stats_from_events
    split
    · rfl
    · rw [hl]
      simp [hc]

/-- Witness for C6: a winner id that is neither player makes the concrete
aggregation call fail. -/
theorem aggregate_invalid_stream_witness :
    (("x" : String) ≠ "p1" ∧ ("x" : String) ≠ "p2")
      ∧ aggregate_stats_from_events [] "x" "p1" "p2" 1 = .error .InvalidEventStream :=
  ⟨by decide, (aggregate_invalid_stream [] "x" "p1" "p2" 1).1 (by decide)⟩

/-- C9: apiRequest resolves with a value only when the response is ok (with
the empty object for an empty body); every non-ok response rejects with an
Error whose message is the detail field when that is a string, otherwise the
JSON-serialization of detail, or of the body text when detail is absent or
null, otherwise the raw body text, and the status fallback for an empty
body. -/
theorem apiRequest_error_contract (res : HttpResponse) (parsed : Option Json)
    (hparse : res.body = "" → parsed = none) :
    (∀ v, apiRequest res parsed = .success v → res.ok = true)
      ∧ (res.ok = true → res.body = "" → apiRequest res parsed = .success (.obj []))
      ∧ (res.ok = false →
          (∀ v, apiRequest res parsed ≠ .success v)
            ∧ apiRequest res parsed
                = .failure (some (apiErrorMessage res.status res.body parsed)))
      ∧ (∀ v s, parsed = some v → v.getField "detail" = some (.str s) →
          apiErrorMessage res.status res.body parsed = s)
      ∧ (∀ v d, parsed = some v → v ≠ .null → v.getField "detail" = some d →
          (∀ s, d ≠ .str s) → d ≠ .null →
          apiErrorMessage res.status res.body parsed = Json.stringify d)
      ∧ (∀ v, parsed = some v → v ≠ .null →
          (v.getField "detail" = none ∨ v.getField "detail" = some .null) →
          apiErrorMessage res.status res.body parsed = Json.stringify (.str res.body))
      ∧ ((parsed = none ∨ parsed = some .null) → res.body ≠ "" →
          apiErrorMessage res.status res.body parsed = res.body)
      ∧ (res.body = "" →
          apiErrorMessage res.status res.body parsed
            = request_failed_message res.status) := by
  refine ⟨?_, ?_, ?_, ?_, ?_, ?_, ?_, ?_⟩
  · intro v h
    cases hok : res.ok with
    | true => rfl
    | false =>
      unfold apiRequest at h
      rw [hok] at h
      exact absurd h (by simp)
  · intro hok hb
    unfold apiRequest
    rw [hok, if_pos rfl, if_pos hb]
  · intro hok
    unfold apiRequest
    rw [hok]
    exact ⟨fun v h => by exact absurd h (by simp), rfl⟩
  · intro v s hp hd
    subst hp
    cases v with
    | null => simp [Json.getField] at hd
    | bool b => simp only [apiErrorMessage, hd, detail_message]
    | num n => simp only [apiErrorMessage, hd, detail_message]
    | str t => simp only [apiErrorMessage, hd, detail_message]
    | arr es => simp only [apiErrorMessage, hd, detail_message]
    | obj fs => simp only [apiErrorMessage, hd, detail_message]
  · intro v d hp hnull hd hstr hdnull
    subst hp
    have hmsg : ∀ t : String, detail_message t (some d) = Json.stringify d := by
      intro t
      cases d with
      | null => exact absurd rfl hdnull
      | str s => exact absurd rfl (hstr s)
      | bool b => rfl
      | num n => rfl
      | arr es => rfl
      | obj fs => rfl
    cases v with
    | null => exact absurd rfl hnull
    | bool b => simp only [apiErrorMessage, hd, hmsg]
    | num n => simp only [apiErrorMessage, hd, hmsg]
    | str t => simp only [apiErrorMessage, hd, hmsg]
    | arr es => simp only [apiErrorMessage, hd, hmsg]
    | obj fs => simp only [apiErrorMessage, hd, hmsg]
  · intro v hp hnull hcase
    subst hp
    have hmsg : ∀ t : String,
        detail_message t (v.getField "detail") = Json.stringify (.str t) := by
      intro t
      rcases hcase with h | h <;> rw [h] <;> rfl
    cases v with
    | null => exact absurd rfl hnull
    | bool b => simp only [apiErrorMessage, hmsg]
    | num n => simp only [apiErrorMessage, hmsg]
    | str t => simp only [apiErrorMessage, hmsg]
    | arr es => simp only [apiErrorMessage, hmsg]
    | obj fs => simp only [apiErrorMessage, hmsg]
  · intro hp hb
    rcases hp with h | h <;> subst h <;>
      simp only [apiErrorMessage, if_neg hb]
  · intro hb
    have hp := hparse hb
    subst hp
    simp only [apiErrorMessage, if_pos hb]

/-- Witness for C9 at a concrete 404 response with a JSON detail body. -/
theorem apiRequest_error_contract_witness :
    (resD.body = "" → parsedD = none)
      ∧ apiRequest resD parsedD
          = .failure (some (apiErrorMessage resD.status resD.body parsedD))
      ∧ apiErrorMessage resD.status resD.body parsedD = "nope" := by
  have h := apiRequest_error_contract resD parsedD (fun hb => absurd hb (by decide))
  exact ⟨fun hb => absurd hb (by decide), (h.2.2.1 rfl).2,
    h.2.2.2.1 (Json.obj [("detail", Json.str "nope")]) "nope" rfl rfl⟩

/-- A count and its complement-count partition the list. -/
theorem countP_compl {α : Type} (p : α → Bool) (l : List α) :
    l.countP p + l.countP (fun e => !p e) = l.length := by
  induction l with
  | nil => simp
  | cons e rest ih =>
    simp only [List.countP_cons, List.length_cons]
    cases hp : p e <;> simp [hp] <;> omega

/-- Invariant of the buildMomentumData loop: starting from running scores
summing to the processed-prefix length, every produced row carries scores
summing to its one-based point index, that index, and their difference. -/
theorem buildMomentumGo_spec (paId : String) :
    ∀ (events : List MomentumEvent) (i a b : Nat), a + b = i →
      ∀ (j : Nat) (h : j < (buildMomentumGo paId events i a b).length),
        ((buildMomentumGo paId events i a b).get ⟨j, h⟩).scoreA
            + ((buildMomentumGo paId events i a b).get ⟨j, h⟩).scoreB = i + j + 1
          ∧ ((buildMomentumGo paId events i a b).get ⟨j, h⟩).point = i + j + 1
          ∧ ((buildMomentumGo paId events i a b).get ⟨j, h⟩).diff
              = (((buildMomentumGo paId events i a b).get ⟨j, h⟩).scoreA : Int)
                - (((buildMomentumGo paId events i a b).get ⟨j, h⟩).scoreB : Int) := by
  intro events
  induction events with
  | nil =>
    intro i a b hab j h
    simp [buildMomentumGo] at h
  | cons e rest ih =>
    intro i a b hab j h
    by_cases hw : (e.outcome.map fun o => o.winner_id) = some paId
    · cases j with
      | zero =>
        refine ⟨?_, ?_, ?_⟩ <;> simp [buildMomentumGo, hw, List.get] <;> omega
      | succ j2 =>
        have h2 : j2 < (buildMomentumGo paId rest (i + 1) (a + 1) b).length := by
          have := h
          simpa [buildMomentumGo, hw] using this
        obtain ⟨h1, h2x, h3⟩ := ih (i + 1) (a + 1) b (by omega) j2 h2
        have hget : (buildMomentumGo paId (e :: rest) i a b).get ⟨j2 + 1, h⟩
            = (buildMomentumGo paId rest (i + 1) (a + 1) b).get ⟨j2, h2⟩ := by
          simp [buildMomentumGo, hw, List.get]
        rw [hget]
        exact ⟨by omega, by omega, h3⟩
    · cases j with
      | zero =>
        refine ⟨?_, ?_, ?_⟩ <;> simp [buildMomentumGo, hw, List.get] <;> omega
      | succ j2 =>
        have h2 : j2 < (buildMomentumGo paId rest (i + 1) a (b + 1)).length := by
          have := h
          simpa [buildMomentumGo, hw] using this
        obtain ⟨h1, h2x, h3⟩ := ih (i + 1) a (b + 1) (by omega) j2 h2
        have hget : (buildMomentumGo paId (e :: rest) i a b).get ⟨j2 + 1, h⟩
            = (buildMomentumGo paId rest (i + 1) a (b + 1)).get ⟨j2, h2⟩ := by
          simp [buildMomentumGo, hw, List.get]
        rw [hget]
        exact ⟨by omega, by omega, h3⟩

/-- C7: per-player point totals produced by a successful aggregation partition
the events, so they sum to the event count; and the frontend analogue
buildMomentumData preserves the same totals on every prefix: the i-th output
row has scoreA + scoreB = i + 1, point = i + 1 and diff = scoreA - scoreB. -/
theorem aggregation_point_totals :
    (∀ (events : List PointEvent) (w pa pb : String) (bo : Nat) (sa sb : MatchStats),
        aggregate_stats_from_events events w pa pb bo = .ok (sa, sb) →
        sa.points_won + sb.points_won = events.length)
      ∧ (∀ (events : List MomentumEvent) (paId : String) (i : Nat)
          (h : i < (buildMomentumData events paId).length),
          ((buildMomentumData events paId).get ⟨i, h⟩).scoreA
              + ((buildMomentumData events paId).get ⟨i, h⟩).scoreB = i + 1
            ∧ ((buildMomentumData events paId).get ⟨i, h⟩).point = i + 1
            ∧ ((buildMomentumData events paId).get ⟨i, h⟩).diff
                = (((buildMomentumData events paId).get ⟨i, h⟩).scoreA : Int)
                  - (((buildMomentumData events paId).get ⟨i, h⟩).scoreB : Int)) := by
  constructor
  · intro events w pa pb bo sa sb h
    unfold aggregate_stats_from_events at h
    split at h
    · exact absurd h (by simp)
    · split at h
      · exact absurd h (by simp)
      · split at h
        · rw [Except.ok.injEq, Prod.mk.injEq] at h
          obtain ⟨h1, h2⟩ := h
          rw [← h1, ← h2]
          simp only [stats_of_events_a, stats_of_events_b]
          exact countP_compl _ events
        · exact absurd h (by simp)
  · intro events paId i h
    have := buildMomentumGo_spec paId events 0 0 0 rfl i h
    simpa [buildMomentumData] using this

/-- Witness for C7: a concrete one-event stream aggregates successfully with
totals 1, and a concrete one-event momentum input satisfies the prefix
property at index 0. -/
theorem aggregation_point_totals_witness :
    aggregate_stats_from_events [ev_agg] "p1" "p1" "p2" 1
        = .ok (stats_of_events_a [ev_agg] ev_agg "p1" "p1" 1,
            stats_of_events_b [ev_agg] ev_agg "p1" "p1" "p2" 1)
      ∧ (stats_of_events_a [ev_agg] ev_agg "p1" "p1" 1).points_won
          + (stats_of_events_b [ev_agg] ev_agg "p1" "p1" "p2" 1).points_won
          = [ev_agg].length
      ∧ (((buildMomentumData [⟨some ⟨"p1"⟩⟩] "p1").get ⟨0, by decide⟩).scoreA
            + ((buildMomentumData [⟨some ⟨"p1"⟩⟩] "p1").get ⟨0, by decide⟩).scoreB = 0 + 1
          ∧ ((buildMomentumData [⟨some ⟨"p1"⟩⟩] "p1").get ⟨0, by decide⟩).point = 0 + 1
          ∧ ((buildMomentumData [⟨some ⟨"p1"⟩⟩] "p1").get ⟨0, by decide⟩).diff
              = (((buildMomentumData [⟨some ⟨"p1"⟩⟩] "p1").get ⟨0, by decide⟩).scoreA : Int)
                - (((buildMomentumData [⟨some ⟨"p1"⟩⟩] "p1").get ⟨0, by decide⟩).scoreB : Int)) := by
  refine ⟨by rfl, ?_, ?_⟩
  · exact aggregation_point_totals.1 [ev_agg] "p1" "p1" "p2" 1 _ _ (by rfl)
  · exact aggregation_point_totals.2 [⟨some ⟨"p1"⟩⟩] "p1" 0 (by decide)

/-- apply_point when the game-win condition is met. -/
theorem apply_point_pos (cfg : MatchConfig) (st : TrackerState) (w : Side)
    (h : game_won cfg.games_to_win_set cfg.win_by ((st.game_score.inc w).get w)
      ((st.game_score.inc w).get w.other) = true) :
    st.apply_point cfg w
      = (⟨st.game_score, st.game_score.inc w, st.set_scores, st.set_scores.inc w,
          st.set_index, st.point_index, (step_streak st.momentum w).broken,
          (step_streak st.momentum w).continuing⟩,
        ⟨⟨0, 0⟩, st.set_scores.inc w, st.set_index + 1, st.point_index + 1,
          (step_streak st.momentum w).momentum⟩) := by
  unfold TrackerState.apply_point
  rw [if_pos h]

/-- apply_point when the game continues. -/
theorem apply_point_neg (cfg : MatchConfig) (st : TrackerState) (w : Side)
    (h : game_won cfg.games_to_win_set cfg.win_by ((st.game_score.inc w).get w)
      ((st.game_score.inc w).get w.other) = false) :
    st.apply_point cfg w
      = (⟨st.game_score, st.game_score.inc w, st.set_scores, st.set_scores,
          st.set_index, st.point_index, (step_streak st.momentum w).broken,
          (step_streak st.momentum w).continuing⟩,
        ⟨st.game_score.inc w, st.set_scores, st.set_index, st.point_index + 1,
          (step_streak st.momentum w).momentum⟩) := by
  unfold TrackerState.apply_point
  rw [if_neg (by rw [h]; exact Bool.false_ne_true)]

/-- C3: when the incremented winner count meets the game-win condition (at
least games_to_win_set points and a lead of at least win_by), the tracker
awards the game — both in-set counters reset to zero, the winner's set tally
increments; otherwise, in particular during deuce when both players have
games_to_win_set - 1 or more points and the lead stays below win_by, the
counters keep incrementing and no set is awarded, with no point cap. -/
theorem tracker_game_award (cfg : MatchConfig) (st : TrackerState) (w : Side) :
    (game_won cfg.games_to_win_set cfg.win_by ((st.game_score.inc w).get w)
        ((st.game_score.inc w).get w.other) = true →
      ((st.apply_point cfg w).2).game_score = ⟨0, 0⟩
        ∧ ((st.apply_point cfg w).2).set_scores = st.set_scores.inc w
        ∧ ((st.apply_point cfg w).1).score_after = st.game_score.inc w
        ∧ ((st.apply_point cfg w).1).set_scores_after = st.set_scores.inc w)
      ∧ (game_won cfg.games_to_win_set cfg.win_by ((st.game_score.inc w).get w)
          ((st.game_score.inc w).get w.other) = false →
        ((st.apply_point cfg w).2).game_score = st.game_score.inc w
          ∧ ((st.apply_point cfg w).2).set_scores = st.set_scores
          ∧ ((st.apply_point cfg w).1).score_after = st.game_score.inc w
          ∧ ((st.apply_point cfg w).1).set_scores_after = st.set_scores)
      ∧ (cfg.games_to_win_set - 1 ≤ st.game_score.get w →
          cfg.games_to_win_set - 1 ≤ st.game_score.get w.other →
          (st.game_score.inc w).get w < (st.game_score.inc w).get w.other + cfg.win_by →
        ((st.apply_point cfg w).2).game_score = st.game_score.inc w
          ∧ ((st.apply_point cfg w).2).set_scores = st.set_scores) := by
  refine ⟨fun h => ?_, fun h => ?_, fun h1 h2 h3 => ?_⟩
  · rw [apply_point_pos cfg st w h]
    exact ⟨rfl, rfl, rfl, rfl⟩
  · rw [apply_point_neg cfg st w h]
    exact ⟨rfl, rfl, rfl, rfl⟩
  · have h : game_won cfg.games_to_win_set cfg.win_by ((st.game_score.inc w).get w)
        ((st.game_score.inc w).get w.other) = false := by
      unfold game_won
      simp only [Bool.and_eq_false_iff, decide_eq_false_iff_not, not_le]
      right
      omega
    rw [apply_point_neg cfg st w h]
    exact ⟨rfl, rfl⟩

/-- Witness for C3: from the initial tracker state of a play-to-1 game, the
first point won meets the win condition and awards the set. -/
theorem tracker_game_award_witness :
    game_won cfg_m1.games_to_win_set cfg_m1.win_by
        ((TrackerState.init.game_score.inc .A).get .A)
        ((TrackerState.init.game_score.inc .A).get Side.A.other) = true
      ∧ (((TrackerState.init.apply_point cfg_m1 .A).2).game_score = ⟨0, 0⟩
          ∧ ((TrackerState.init.apply_point cfg_m1 .A).2).set_scores
              = TrackerState.init.set_scores.inc .A
          ∧ ((TrackerState.init.apply_point cfg_m1 .A).1).score_after
              = TrackerState.init.game_score.inc .A
          ∧ ((TrackerState.init.apply_point cfg_m1 .A).1).set_scores_after
              = TrackerState.init.set_scores.inc .A) :=
  ⟨by decide, (tracker_game_award cfg_m1 TrackerState.init .A).1 (by decide)⟩

/-- The event of one orchestrator step is the emission of the tracker
transition for the drawn winner. -/
theorem sim_step_fst (cfg : MatchConfig) (pa pb : PlayerProfile) (s : SimState) :
    (sim_step cfg pa pb s).1
      = emit_event cfg
          ((s.tracker.apply_point cfg
            (simulate_point pa pb s.fatigue s.tracker.momentum s.rng).1.winner).1)
          (simulate_point pa pb s.fatigue s.tracker.momentum s.rng).1 := rfl

/-- The tracker after one orchestrator step. -/
theorem sim_step_snd_tracker (cfg : MatchConfig) (pa pb : PlayerProfile) (s : SimState) :
    (sim_step cfg pa pb s).2.tracker
      = (s.tracker.apply_point cfg
          (simulate_point pa pb s.fatigue s.tracker.momentum s.rng).1.winner).2 := rfl

/-- The emitted event's before-fields are the pre-step tracker fields. -/
theorem sim_step_event_before (cfg : MatchConfig) (pa pb : PlayerProfile) (s : SimState) :
    (sim_step cfg pa pb s).1.score_before
        = (s.tracker.game_score.a, s.tracker.game_score.b)
      ∧ (sim_step cfg pa pb s).1.set_scores_before
          = (s.tracker.set_scores.a, s.tracker.set_scores.b)
      ∧ (sim_step cfg pa pb s).1.set_index = s.tracker.set_index := by
  rw [sim_step_fst]
  set w := (simulate_point pa pb s.fatigue s.tracker.momentum s.rng).1.winner with hw
  cases hg : game_won cfg.games_to_win_set cfg.win_by ((s.tracker.game_score.inc w).get w)
      ((s.tracker.game_score.inc w).get w.other)
  · rw [apply_point_neg cfg s.tracker w hg]
    exact ⟨rfl, rfl, rfl⟩
  · rw [apply_point_pos cfg s.tracker w hg]
    exact ⟨rfl, rfl, rfl⟩

/-- A step event and any event whose before-fields come from the post-step
tracker are related by EventStep. -/
theorem sim_step_eventStep (cfg : MatchConfig) (pa pb : PlayerProfile) (s : SimState)
    (e2 : PointEvent)
    (h2b : e2.score_before
      = ((sim_step cfg pa pb s).2.tracker.game_score.a,
        (sim_step cfg pa pb s).2.tracker.game_score.b))
    (h2s : e2.set_scores_before
      = ((sim_step cfg pa pb s).2.tracker.set_scores.a,
        (sim_step cfg pa pb s).2.tracker.set_scores.b))
    (h2i : e2.set_index = (sim_step cfg pa pb s).2.tracker.set_index) :
    EventStep (sim_step cfg pa pb s).1 e2 := by
  rw [sim_step_snd_tracker] at h2b h2s h2i
  rw [sim_step_fst]
  set w := (simulate_point pa pb s.fatigue s.tracker.momentum s.rng).1.winner with hw
  cases hg : game_won cfg.games_to_win_set cfg.win_by ((s.tracker.game_score.inc w).get w)
      ((s.tracker.game_score.inc w).get w.other)
  · rw [apply_point_neg cfg s.tracker w hg] at h2b h2s h2i ⊢
    exact ⟨fun _ => by rw [h2b]; rfl, by rw [h2s]; rfl⟩
  · rw [apply_point_pos cfg s.tracker w hg] at h2b h2s h2i ⊢
    refine ⟨fun hidx => ?_, by rw [h2s]; rfl⟩
    rw [h2i] at hidx
    have : s.tracker.set_index + 1 = s.tracker.set_index := hidx
    omega

/-- The head event of a nonempty run carries the before-fields of the state
the run started from. -/
theorem run_aux_head (cfg : MatchConfig) (pa pb : PlayerProfile) (fuel : Nat)
    (s : SimState) (e : PointEvent) (L : List PointEvent)
    (h : run_aux cfg pa pb fuel s = e :: L) :
    e.score_before = (s.tracker.game_score.a, s.tracker.game_score.b)
      ∧ e.set_scores_before = (s.tracker.set_scores.a, s.tracker.set_scores.b)
      ∧ e.set_index = s.tracker.set_index := by
  cases fuel with
  | zero => simp [run_aux] at h
  | succ f =>
    unfold run_aux at h
    split at h
    · simp at h
    · rw [List.cons.injEq] at h
      rw [← h.1]
      exact sim_step_event_before cfg pa pb s

/-- Every run is an EventStep chain. -/
theorem run_aux_chain (cfg : MatchConfig) (pa pb : PlayerProfile) :
    ∀ (fuel : Nat) (s : SimState), List.Chain' EventStep (run_aux cfg pa pb fuel s) := by
  intro fuel
  induction fuel with
  | zero => intro s; simp [run_aux]
  | succ f ih =>
    intro s
    unfold run_aux
    split
    · simp
    · rw [List.chain'_cons']
      refine ⟨?_, ih _⟩
      intro e2 he2
      cases hL : run_aux cfg pa pb f (sim_step cfg pa pb s).2 with
      | nil => rw [hL] at he2; simp at he2
      | cons e2x L2 =>
        rw [hL] at he2
        simp only [List.head?_cons, Option.mem_def, Option.some.injEq] at he2
        subst he2
        obtain ⟨hb, hs, hi⟩ := run_aux_head cfg pa pb f (sim_step cfg pa pb s).2 e2x L2 hL
        exact sim_step_eventStep cfg pa pb s e2x hb hs hi

/-- Within every emitted event the set tallies do not decrease. -/
theorem run_aux_event_mono (cfg : MatchConfig) (pa pb : PlayerProfile) :
    ∀ (fuel : Nat) (s : SimState) (e : PointEvent), e ∈ run_aux cfg pa pb fuel s →
      e.set_scores_before.1 ≤ e.set_scores_after.1
        ∧ e.set_scores_before.2 ≤ e.set_scores_after.2 := by
  intro fuel
  induction fuel with
  | zero => intro s e h; simp [run_aux] at h
  | succ f ih =>
    intro s e h
    unfold run_aux at h
    split at h
    · simp at h
    · rw [List.mem_cons] at h
      rcases h with h | h
      · subst h
        rw [sim_step_fst]
        set w := (simulate_point pa pb s.fatigue s.tracker.momentum s.rng).1.winner with hw
        cases hg : game_won cfg.games_to_win_set cfg.win_by
            ((s.tracker.game_score.inc w).get w) ((s.tracker.game_score.inc w).get w.other)
        · rw [apply_point_neg cfg s.tracker w hg]
          exact ⟨le_refl _, le_refl _⟩
        · rw [apply_point_pos cfg s.tracker w hg]
          cases w
          · exact ⟨Nat.le_succ _, le_refl _⟩
          · exact ⟨le_refl _, Nat.le_succ _⟩
      · exact ih _ _ h

/-- One applied point either leaves the set tallies unchanged or increments
the winner's tally, in the resulting state and in the emitted transition
alike. -/
theorem apply_point_sets_cases (cfg : MatchConfig) (st : TrackerState) (w : Side) :
    ((st.apply_point cfg w).2.set_scores = st.set_scores
        ∧ ((st.apply_point cfg w).1).set_scores_after = st.set_scores)
      ∨ ((st.apply_point cfg w).2.set_scores = st.set_scores.inc w
        ∧ ((st.apply_point cfg w).1).set_scores_after = st.set_scores.inc w) := by
  cases hg : game_won cfg.games_to_win_set cfg.win_by ((st.game_score.inc w).get w)
      ((st.game_score.inc w).get w.other)
  · left
    rw [apply_point_neg cfg st w hg]
    exact ⟨rfl, rfl⟩
  · right
    rw [apply_point_pos cfg st w hg]
    exact ⟨rfl, rfl⟩

/-- Incrementing one side raises each counter by at most one. -/
theorem ScorePair.inc_bounds (s : ScorePair) (w : Side) :
    (s.inc w).a ≤ s.a + 1 ∧ (s.inc w).b ≤ s.b + 1 := by
  cases w
  · exact ⟨le_refl _, Nat.le_succ _⟩
  · exact ⟨Nat.le_succ _, le_refl _⟩

/-- Applying a point from a state with both tallies strictly below a bound
keeps both tallies at or below the bound, in the state and in the emitted
transition. -/
theorem apply_point_sets_le (cfg : MatchConfig) (st : TrackerState) (w : Side)
    (S : Nat) (ha : st.set_scores.a < S) (hb : st.set_scores.b < S) :
    ((st.apply_point cfg w).2.set_scores.a ≤ S
        ∧ (st.apply_point cfg w).2.set_scores.b ≤ S)
      ∧ (((st.apply_point cfg w).1).set_scores_after.a ≤ S
        ∧ ((st.apply_point cfg w).1).set_scores_after.b ≤ S) := by
  have hib := ScorePair.inc_bounds st.set_scores w
  rcases apply_point_sets_cases cfg st w with ⟨h1, h2⟩ | ⟨h1, h2⟩ <;>
    rw [h1, h2] <;> exact ⟨⟨by omega, by omega⟩, by omega, by omega⟩

/-- Set tallies of every emitted event stay bounded by sets_to_win_match when
the run starts below the bound. -/
theorem run_aux_sets_bound (cfg : MatchConfig) (pa pb : PlayerProfile) :
    ∀ (fuel : Nat) (s : SimState),
      s.tracker.set_scores.a ≤ sets_to_win_match cfg.best_of →
      s.tracker.set_scores.b ≤ sets_to_win_match cfg.best_of →
      ∀ e ∈ run_aux cfg pa pb fuel s,
        e.set_scores_after.1 ≤ sets_to_win_match cfg.best_of
          ∧ e.set_scores_after.2 ≤ sets_to_win_match cfg.best_of := by
  intro fuel
  induction fuel with
  | zero => intro s _ _ e h; simp [run_aux] at h
  | succ f ih =>
    intro s ha hb e h
    unfold run_aux at h
    split at h
    · simp at h
    · rename_i hnc
      have hlt : s.tracker.set_scores.a < sets_to_win_match cfg.best_of
          ∧ s.tracker.set_scores.b < sets_to_win_match cfg.best_of := by
        unfold match_complete at hnc
        simp only [Bool.or_eq_true, decide_eq_true_eq, not_or] at hnc
        omega
      have hap := apply_point_sets_le cfg s.tracker
        (simulate_point pa pb s.fatigue s.tracker.momentum s.rng).1.winner
        (sets_to_win_match cfg.best_of) hlt.1 hlt.2
      rw [List.mem_cons] at h
      rcases h with h | h
      · subst h
        have hafter : (sim_step cfg pa pb s).1.set_scores_after
            = (((s.tracker.apply_point cfg
                  (simulate_point pa pb s.fatigue s.tracker.momentum s.rng).1.winner).1).set_scores_after.a,
              ((s.tracker.apply_point cfg
                  (simulate_point pa pb s.fatigue s.tracker.momentum s.rng).1.winner).1).set_scores_after.b) := rfl
        rw [hafter]
        exact hap.2
      · refine ih _ ?_ ?_ e h
        · rw [sim_step_snd_tracker cfg pa pb s]
          exact hap.1.1
        · rw [sim_step_snd_tracker cfg pa pb s]
          exact hap.1.2

/-- An EventStep chain whose events are pointwise monotone is a SetTallyLE
chain. -/
theorem chain_tally_le :
    ∀ (L : List PointEvent), List.Chain' EventStep L →
      (∀ e ∈ L, e.set_scores_before.1 ≤ e.set_scores_after.1
        ∧ e.set_scores_before.2 ≤ e.set_scores_after.2) →
      List.Chain' SetTallyLE L := by
  intro L
  induction L with
  | nil => intro _ _; simp
  | cons e1 rest ih =>
    intro hc hm
    rw [List.chain'_cons'] at hc ⊢
    refine ⟨?_, ih hc.2 (fun e he => hm e (List.mem_cons_of_mem _ he))⟩
    intro e2 he2
    have hstep := hc.1 e2 he2
    have hm2 := hm e2 (List.mem_cons_of_mem _ (List.mem_of_mem_head? he2))
    have hbefore := hstep.2
    constructor
    · calc e1.set_scores_after.1 = e2.set_scores_before.1 := by rw [hbefore]
        _ ≤ e2.set_scores_after.1 := hm2.1
    · calc e1.set_scores_after.2 = e2.set_scores_before.2 := by rw [hbefore]
        _ ≤ e2.set_scores_after.2 := hm2.2

/-- C4: in every produced sequence, consecutive events chain — within one game
unit score_after of an event equals score_before of the next, and the
set-score tallies always chain; set-score tuples are non-decreasing along the
whole sequence; and at match end each player's set tally is at most
sets_to_win_match. -/
theorem score_monotonic (cfg : MatchConfig) (store : ProfileStore) (L : List PointEvent)
    (h : MatchOrchestrator.run cfg store = .ok L) :
    List.Chain' EventStep L
      ∧ (∀ e ∈ L, e.set_scores_before.1 ≤ e.set_scores_after.1
          ∧ e.set_scores_before.2 ≤ e.set_scores_after.2)
      ∧ (∀ (i j : Nat) (hij : i ≤ j) (hj : j < L.length),
          SetTallyLE (L.get ⟨i, lt_of_le_of_lt hij hj⟩) (L.get ⟨j, hj⟩))
      ∧ (∀ last, L.getLast? = some last →
          last.set_scores_after.1 ≤ sets_to_win_match cfg.best_of
            ∧ last.set_scores_after.2 ≤ sets_to_win_match cfg.best_of) := by
  unfold MatchOrchestrator.run at h
  split at h
  · split at h
    · rename_i pa pb hpa hpb
      rw [Except.ok.injEq] at h
      subst h
      have hchain := run_aux_chain cfg pa pb (match_fuel cfg) (SimState.init cfg)
      have hmono := fun e he =>
        run_aux_event_mono cfg pa pb (match_fuel cfg) (SimState.init cfg) e he
      refine ⟨hchain, hmono, ?_, ?_⟩
      · intro i j hij hj
        rcases Nat.lt_or_ge i j with hlt | hge
        · have hpw := (List.chain'_iff_pairwise.mp
            (chain_tally_le _ hchain hmono))
          rw [List.pairwise_iff_get] at hpw
          exact hpw ⟨i, _⟩ ⟨j, hj⟩ hlt
        · have hij2 : i = j := le_antisymm hij hge
          subst hij2
          exact ⟨le_refl _, le_refl _⟩
      · intro last hl
        exact run_aux_sets_bound cfg pa pb (match_fuel cfg) (SimState.init cfg)
          (Nat.zero_le _) (Nat.zero_le _) last (List.mem_of_mem_getLast? hl)
    · exact absurd h (by simp)
  · exact absurd h (by simp)

/-- Witness for C4 at the concrete one-point match of cfg_m1. -/
theorem score_monotonic_witness :
    MatchOrchestrator.run cfg_m1 sample_store = .ok run_m1
      ∧ (List.Chain' EventStep run_m1
          ∧ (∀ e ∈ run_m1, e.set_scores_before.1 ≤ e.set_scores_after.1
              ∧ e.set_scores_before.2 ≤ e.set_scores_after.2)
          ∧ (∀ (i j : Nat) (hij : i ≤ j) (hj : j < run_m1.length),
              SetTallyLE (run_m1.get ⟨i, lt_of_le_of_lt hij hj⟩) (run_m1.get ⟨j, hj⟩))
          ∧ (∀ last, run_m1.getLast? = some last →
              last.set_scores_after.1 ≤ sets_to_win_match cfg_m1.best_of
                ∧ last.set_scores_after.2 ≤ sets_to_win_match cfg_m1.best_of)) :=
  ⟨rfl, score_monotonic cfg_m1 sample_store run_m1 rfl⟩

/-- With distinct player ids, side identifiers are injective. -/
theorem side_id_inj (cfg : MatchConfig) (hid : cfg.player_a_id ≠ cfg.player_b_id)
    (p q : Side) (h : side_id cfg p = side_id cfg q) : p = q := by
  cases p <;> cases q
  · rfl
  · exact absurd h hid
  · exact absurd h.symm hid
  · rfl

/-- The streak flag of a streak step is set exactly when a streak of length at
least two held by the other player is ended. -/
theorem step_streak_broken_iff (m : MomentumState) (w : Side) :
    (step_streak m w).broken = true
      ↔ ∃ p, m.streak_player = some p ∧ p ≠ w ∧ 2 ≤ m.streak_length := by
  cases hsp : m.streak_player with
  | none => simp [step_streak, hsp]
  | some p =>
    by_cases hpw : p = w
    · subst hpw
      simp [step_streak, hsp]
    · simp [step_streak, hsp, hpw]

/-- Streak bookkeeping commutes with the translation from sides to ids. -/
theorem mom_ids_step (cfg : MatchConfig) (hid : cfg.player_a_id ≠ cfg.player_b_id)
    (m : MomentumState) (w : Side) :
    mom_ids cfg (step_streak m w).momentum
      = streak_step (mom_ids cfg m) (side_id cfg w) := by
  cases hsp : m.streak_player with
  | none => simp [step_streak, hsp, mom_ids, streak_step]
  | some p =>
    by_cases hpw : p = w
    · subst hpw
      simp [step_streak, hsp, mom_ids, streak_step]
    · have hne : side_id cfg p ≠ side_id cfg w :=
        fun h => hpw (side_id_inj cfg hid p w h)
      simp [step_streak, hsp, hpw, mom_ids, streak_step, hne]

/-- Streak fields of one applied point, independent of whether the point won
the game. -/
theorem apply_point_streak_fields (cfg : MatchConfig) (st : TrackerState) (w : Side) :
    ((st.apply_point cfg w).1).streak_broken = (step_streak st.momentum w).broken
      ∧ (st.apply_point cfg w).2.momentum = (step_streak st.momentum w).momentum := by
  cases hg : game_won cfg.games_to_win_set cfg.win_by ((st.game_score.inc w).get w)
      ((st.game_score.inc w).get w.other)
  · rw [apply_point_neg cfg st w hg]
    exact ⟨rfl, rfl⟩
  · rw [apply_point_pos cfg st w hg]
    exact ⟨rfl, rfl⟩

/-- Streak fields of one orchestrator step, expressed over the drawn winner. -/
theorem sim_step_streak (cfg : MatchConfig) (pa pb : PlayerProfile) (s : SimState) :
    (sim_step cfg pa pb s).1.streak_broken
        = (step_streak s.tracker.momentum
            (simulate_point pa pb s.fatigue s.tracker.momentum s.rng).1.winner).broken
      ∧ (sim_step cfg pa pb s).1.outcome.winner_id
          = side_id cfg (simulate_point pa pb s.fatigue s.tracker.momentum s.rng).1.winner
      ∧ (sim_step cfg pa pb s).2.tracker.momentum
          = (step_streak s.tracker.momentum
              (simulate_point pa pb s.fatigue s.tracker.momentum s.rng).1.winner).momentum := by
  refine ⟨?_, rfl, ?_⟩
  · rw [sim_step_fst]
    exact (apply_point_streak_fields cfg s.tracker
      (simulate_point pa pb s.fatigue s.tracker.momentum s.rng).1.winner).1
  · rw [sim_step_snd_tracker]
    exact (apply_point_streak_fields cfg s.tracker
      (simulate_point pa pb s.fatigue s.tracker.momentum s.rng).1.winner).2

/-- Every run satisfies the streak-broken soundness property relative to the
id view of its starting momentum. -/
theorem run_aux_streakOK (cfg : MatchConfig) (pa pb : PlayerProfile)
    (hid : cfg.player_a_id ≠ cfg.player_b_id) :
    ∀ (fuel : Nat) (s : SimState),
      StreakOK (mom_ids cfg s.tracker.momentum) (run_aux cfg pa pb fuel s) := by
  intro fuel
  induction fuel with
  | zero => intro s; exact trivial
  | succ f ih =>
    intro s
    unfold run_aux
    split
    · exact trivial
    · refine ⟨?_, ?_⟩
      · intro hb
        rw [(sim_step_streak cfg pa pb s).1] at hb
        obtain ⟨p, hp, hpw, hlen⟩ := (step_streak_broken_iff _ _).mp hb
        refine ⟨side_id cfg p, ?_, ?_, hlen⟩
        · simp [mom_ids, hp]
        · rw [(sim_step_streak cfg pa pb s).2.1]
          exact fun h => hpw (side_id_inj cfg hid p _ h)
      · have heq : streak_step (mom_ids cfg s.tracker.momentum)
            (sim_step cfg pa pb s).1.outcome.winner_id
            = mom_ids cfg (sim_step cfg pa pb s).2.tracker.momentum := by
          rw [(sim_step_streak cfg pa pb s).2.1, (sim_step_streak cfg pa pb s).2.2,
            mom_ids_step cfg hid]
        rw [heq]
        exact ih (sim_step cfg pa pb s).2

/-- Index form of the streak-broken soundness property. -/
theorem streakOK_get :
    ∀ (L : List PointEvent) (acc : Option String × Nat), StreakOK acc L →
      ∀ (n : Nat) (hn : n < L.length), (L.get ⟨n, hn⟩).streak_broken = true →
        ∃ p, (((L.take n).map (fun e => e.outcome.winner_id)).foldl streak_step acc).1
              = some p
          ∧ p ≠ (L.get ⟨n, hn⟩).outcome.winner_id
          ∧ 2 ≤ (((L.take n).map (fun e => e.outcome.winner_id)).foldl streak_step acc).2 := by
  intro L
  induction L with
  | nil => intro acc _ n hn; simp at hn
  | cons e rest ih =>
    intro acc hok n hn hb
    cases n with
    | zero => exact hok.1 hb
    | succ n2 =>
      exact ih (streak_step acc e.outcome.winner_id) hok.2 n2
        (Nat.lt_of_succ_lt_succ hn) hb

/-- After folding the streak bookkeeping over a winner list ending in w, the
streak holder is w. -/
theorem streak_step_foldl_last :
    ∀ (ws : List String) (acc : Option String × Nat) (w : String),
      (((ws ++ [w]).foldl streak_step acc)).1 = some w := by
  intro ws
  induction ws with
  | nil =>
    intro acc w
    by_cases h : acc.1 = some w <;> simp [streak_step, h]
  | cons x ws2 ih =>
    intro acc w
    rw [List.cons_append, List.foldl_cons]
    exact ih _ w

/-- C5: in every produced sequence, streak_broken is set only on a point whose
winner differs from the previous point's winner while the previous winner's
streak, read off the event sequence itself, had length at least 2; and the
streak bookkeeping increments the counter of a player who wins consecutively
(clearing the opponent, who never holds the single streak slot) and resets it
to 1 for a new winner, flagging the break exactly when the ended streak had
length at least 2. -/
theorem streak_broken_sound (cfg : MatchConfig) (store : ProfileStore)
    (L : List PointEvent) (h : MatchOrchestrator.run cfg store = .ok L)
    (hid : cfg.player_a_id ≠ cfg.player_b_id) :
    (∀ (n : Nat) (hn : n + 1 < L.length),
        (L.get ⟨n + 1, hn⟩).streak_broken = true →
          (L.get ⟨n + 1, hn⟩).outcome.winner_id
              ≠ (L.get ⟨n, Nat.lt_of_succ_lt hn⟩).outcome.winner_id
            ∧ (streak_state ((L.take (n + 1)).map (fun e => e.outcome.winner_id))).1
                = some ((L.get ⟨n, Nat.lt_of_succ_lt hn⟩).outcome.winner_id)
            ∧ 2 ≤ (streak_state ((L.take (n + 1)).map (fun e => e.outcome.winner_id))).2)
      ∧ (∀ (m : MomentumState) (w : Side),
          (m.streak_player = some w →
            step_streak m w = ⟨⟨some w, m.streak_length + 1⟩, false, some w⟩)
            ∧ (m.streak_player = none →
              step_streak m w = ⟨⟨some w, 1⟩, false, none⟩)
            ∧ (∀ p, m.streak_player = some p → p ≠ w →
              step_streak m w
                = ⟨⟨some w, 1⟩, decide (2 ≤ m.streak_length), none⟩)) := by
  constructor
  · intro n hn hb
    -- recover the event list as a run and apply the invariant
    unfold MatchOrchestrator.run at h
    split at h
    · split at h
      · rename_i pa pb hpa hpb
        rw [Except.ok.injEq] at h
        subst h
        have hok := run_aux_streakOK cfg pa pb hid (match_fuel cfg) (SimState.init cfg)
        have hinit : mom_ids cfg (SimState.init cfg).tracker.momentum = (none, 0) := rfl
        rw [hinit] at hok
        obtain ⟨p, hp, hpw, hlen⟩ := streakOK_get _ (none, 0) hok (n + 1) hn hb
        set L := run_aux cfg pa pb (match_fuel cfg) (SimState.init cfg) with hL
        have htake : (L.take (n + 1)).map (fun e => e.outcome.winner_id)
            = ((L.take n).map (fun e => e.outcome.winner_id))
              ++ [(L.get ⟨n, Nat.lt_of_succ_lt hn⟩).outcome.winner_id] := by
          rw [List.take_succ, List.getElem?_eq_getElem (Nat.lt_of_succ_lt hn)]
          simp only [Option.toList_some, List.map_append, List.map_cons, List.map_nil,
            List.get_eq_getElem]
        have hlast : (streak_state ((L.take (n + 1)).map (fun e => e.outcome.winner_id))).1
            = some ((L.get ⟨n, Nat.lt_of_succ_lt hn⟩).outcome.winner_id) := by
          rw [streak_state, htake]
          exact streak_step_foldl_last _ _ _
        have hpn : p = (L.get ⟨n, Nat.lt_of_succ_lt hn⟩).outcome.winner_id := by
          rw [streak_state] at hlast
          exact Option.some_inj.mp (hp.symm.trans hlast)
        subst hpn
        refine ⟨fun hwin => hpw hwin.symm, ?_, hlen⟩
        rw [streak_state]
        exact hp
      · exact absurd h (by simp)
    · exact absurd h (by simp)
  · intro m w
    refine ⟨fun hp => ?_, fun hp => ?_, fun p hp hpw => ?_⟩
    · unfold step_streak
      rw [hp]
      simp
    · unfold step_streak
      rw [hp]
    · unfold step_streak
      rw [hp]
      simp [hpw]

/-- Witness for C5 at the concrete one-point match of cfg_m1. -/
theorem streak_broken_sound_witness :
    MatchOrchestrator.run cfg_m1 sample_store = .ok run_m1
      ∧ cfg_m1.player_a_id ≠ cfg_m1.player_b_id
      ∧ ((∀ (n : Nat) (hn : n + 1 < run_m1.length),
          (run_m1.get ⟨n + 1, hn⟩).streak_broken = true →
            (run_m1.get ⟨n + 1, hn⟩).outcome.winner_id
                ≠ (run_m1.get ⟨n, Nat.lt_of_succ_lt hn⟩).outcome.winner_id
              ∧ (streak_state ((run_m1.take (n + 1)).map (fun e => e.outcome.winner_id))).1
                  = some ((run_m1.get ⟨n, Nat.lt_of_succ_lt hn⟩).outcome.winner_id)
              ∧ 2 ≤ (streak_state ((run_m1.take (n + 1)).map (fun e => e.outcome.winner_id))).2)
        ∧ (∀ (m : MomentumState) (w : Side),
            (m.streak_player = some w →
              step_streak m w = ⟨⟨some w, m.streak_length + 1⟩, false, some w⟩)
              ∧ (m.streak_player = none →
                step_streak m w = ⟨⟨some w, 1⟩, false, none⟩)
              ∧ (∀ p, m.streak_player = some p → p ≠ w →
                step_streak m w
                  = ⟨⟨some w, 1⟩, decide (2 ≤ m.streak_length), none⟩))) :=
  ⟨rfl, by decide, streak_broken_sound cfg_m1 sample_store run_m1 rfl (by decide)⟩

end TTF
